import Mathlib

/-!
Verification of the NNSProposalBot state and delivery engine.

The definitions below are a shallow embedding of `src/main.go`:

* Go's `map[int64]map[string]bool` registry (`State.ChatIds`) is modelled as an
  association list `List (Int × List String)`; the inner `map[string]bool` is
  modelled as the list of its keys, because every write performed by the
  program stores the value `true` (`blacklist[topic] = true`), so a key's
  presence is exactly "maps to true".  Map iteration order in Go is
  unspecified; the list order plays that role.
* `uint64` identifiers become `Nat` (the program only compares them with `<`,
  so no wraparound is observable), `int64` chat ids become `Int`.
* Go's `len` on a string is its UTF-8 byte count, modelled by
  `String.utf8ByteSize`.
* I/O-dependent branches (file writes, HTTP fetch, Telegram sends) are
  modelled by passing the outcome of the external call as an explicit
  parameter and returning the resulting state; a `log.Fatal` or a runtime
  panic is modelled as `none` / a `crashed` result.
-/

namespace NNSBot

/-- Configuration constant `MAX_TOPIC_LENGTH = 50` (src/main.go line 23). -/
def MAX_TOPIC_LENGTH : Nat := 50

/-- Configuration constant `MAX_BLOCKED_TOPICS = 30` (src/main.go line 24). -/
def MAX_BLOCKED_TOPICS : Nat := 30

/-- Configuration constant `MAX_SUMMARY_LENGTH = 2048` (src/main.go line 25). -/
def MAX_SUMMARY_LENGTH : Nat := 2048

/-- Reserved governance topic name `TOPIC_GOVERNANCE` (src/main.go line 26). -/
def TOPIC_GOVERNANCE : String := "Governance"

/-- Reserved governance-only sentinel label `ALL_EXCEPT_GOVERNANCE`
(src/main.go line 27). -/
def ALL_EXCEPT_GOVERNANCE : String := "AllButGovernance"

/-- One announcement record from the feed (`type Proposal`, src/main.go
lines 30-36). -/
structure Proposal where
  title : String
  topic : String
  id : Nat
  summary : String
  proposer : Nat
deriving DecidableEq

/-- The shared program state (`type State`, src/main.go lines 38-42):
the watermark `LastSeenProposal` and the registry `ChatIds`.  The
`sync.RWMutex` serializes access in Go; in this sequential model every
operation is already atomic. -/
structure State where
  lastSeenProposal : Nat
  chatIds : List (Int × List String)
deriving DecidableEq

/-- Lookup of `s.ChatIds[id]` in the association-list model: the blacklist of
chat `id`, or `none` when the chat is not subscribed (Go map access yielding
the nil map). -/
def lookupBl : List (Int × List String) → Int → Option (List String)
  | [], _ => none
  | (k, v) :: rest, id => if k = id then some v else lookupBl rest id

/-- In-place mutation of the map value of an existing key
(`blacklist[topic] = true` mutates the value stored in `s.ChatIds`): replace
the value of key `id` if present, otherwise leave the list unchanged. -/
def updateBl : List (Int × List String) → Int → List String → List (Int × List String)
  | [], _, _ => []
  | (k, v) :: rest, id, bl => if k = id then (k, bl) :: rest else (k, v) :: updateBl rest id bl

/-- Deletion of a key (`delete(s.ChatIds, id)`). -/
def removeKey : List (Int × List String) → Int → List (Int × List String)
  | [], _ => []
  | (k, v) :: rest, id => if k = id then rest else (k, v) :: removeKey rest id

/-- `State.setNewLastSeenId` (src/main.go lines 83-91): compare-and-set of the
watermark, returning whether it was updated. -/
def State.setNewLastSeenId (s : State) (id : Nat) : State × Bool :=
  if s.lastSeenProposal < id then ({ s with lastSeenProposal := id }, true)
  else (s, false)

/-- `State.removeChatId` (src/main.go lines 94-99): unsubscribe a chat. -/
def State.removeChatId (s : State) (id : Int) : State :=
  { s with chatIds := removeKey s.chatIds id }

/-- `State.addChatId` (src/main.go lines 102-107): subscribe a chat with an
empty blacklist, overwriting any previous entry.  (A fresh key is appended;
Go map iteration order is unspecified anyway.) -/
def State.addChatId (s : State) (id : Int) : State :=
  match lookupBl s.chatIds id with
  | some _ => { s with chatIds := updateBl s.chatIds id [] }
  | none => { s with chatIds := s.chatIds ++ [(id, [])] }

/-- `State.blockTopic` (src/main.go lines 111-121): add `topic` to the chat's
blacklist unless the label exceeds `MAX_TOPIC_LENGTH` bytes, the chat is not
subscribed (`blacklist != nil` guard), or the blacklist already has
`MAX_BLOCKED_TOPICS` entries. -/
def State.blockTopic (s : State) (id : Int) (topic : String) : State :=
  if topic.utf8ByteSize > MAX_TOPIC_LENGTH then s
  else
    match lookupBl s.chatIds id with
    | none => s
    | some bl =>
      if bl.length < MAX_BLOCKED_TOPICS then
        { s with chatIds := updateBl s.chatIds id (if topic ∈ bl then bl else bl ++ [topic]) }
      else s

/-- `State.unblockTopic` (src/main.go lines 124-131): remove `topic` from the
chat's blacklist (`delete(blacklist, topic)`); no-op if the chat is not
subscribed. -/
def State.unblockTopic (s : State) (id : Int) (topic : String) : State :=
  match lookupBl s.chatIds id with
  | none => s
  | some bl => { s with chatIds := updateBl s.chatIds id (bl.erase topic) }

/-- The two skip conditions of the loop body of `State.chatIdsForTopic`
(src/main.go lines 136-144), as the eligibility of one blacklist for one
topic: the chat is kept iff `topic` is not blacklisted and (the
governance-only sentinel is absent or `topic` is the governance topic). -/
def eligibleB (bl : List String) (topic : String) : Bool :=
  !(bl.contains topic) && !(bl.contains ALL_EXCEPT_GOVERNANCE && !(topic == TOPIC_GOVERNANCE))

/-- `State.chatIdsForTopic` (src/main.go lines 134-149): the chat ids to
notify about `topic`, in registry iteration order. -/
def State.chatIdsForTopic (s : State) (topic : String) : List Int :=
  (s.chatIds.filter (fun p => eligibleB p.2 topic)).map Prod.fst

/-- `State.blockedTopics` (src/main.go lines 152-166): human-readable summary
of a chat's blacklist.  Go collects the keys whose value is `true` — in this
model all keys — and joins them with `", "` in iteration order; a nil or
empty map yields the fixed empty-list message. -/
def State.blockedTopics (s : State) (id : Int) : String :=
  match lookupBl s.chatIds id with
  | none => "Your list of blocked topics is empty."
  | some [] => "Your list of blocked topics is empty."
  | some bl => "You've blocked these topics: " ++ String.intercalate ", " bl ++ "."

/-- Repeated `setNewLastSeenId` calls, keeping only the state. -/
def admitAll (s : State) (ids : List Nat) : State :=
  ids.foldl (fun st i => (st.setNewLastSeenId i).1) s

theorem setNewLastSeenId_fst (s : State) (i : Nat) :
    (s.setNewLastSeenId i).1 = { s with lastSeenProposal := Nat.max s.lastSeenProposal i } := by
  unfold State.setNewLastSeenId
  by_cases h : s.lastSeenProposal < i
  · simp [h, Nat.max_eq_right (Nat.le_of_lt h)]
  · simp [h, Nat.max_eq_left (Nat.le_of_not_lt h)]

theorem admitAll_lastSeen (ids : List Nat) :
    ∀ s : State, (admitAll s ids).lastSeenProposal = ids.foldl Nat.max s.lastSeenProposal := by
  induction ids with
  | nil => intro s; rfl
  | cons i rest ih =>
    intro s
    show (admitAll ((s.setNewLastSeenId i).1) rest).lastSeenProposal = _
    rw [ih, setNewLastSeenId_fst]
    rfl

/-- Claim C3: starting from watermark 0, after any finite sequence of
`setNewLastSeenId (admit)` calls the watermark equals the maximum id ever
passed (`foldl Nat.max 0`); each individual call returns `true` ("new") iff
its id is strictly greater than the watermark at the time of the call; and
the resulting state is the old state with the watermark bumped to the max —
in particular a "duplicate" call leaves the state entirely unchanged. -/
theorem C3_admit_watermark (c : List (Int × List String)) (ids : List Nat)
    (st : State) (i : Nat) :
    (admitAll ⟨0, c⟩ ids).lastSeenProposal = ids.foldl Nat.max 0
    ∧ (st.setNewLastSeenId i).2 = decide (st.lastSeenProposal < i)
    ∧ (st.setNewLastSeenId i).1
        = { st with lastSeenProposal := Nat.max st.lastSeenProposal i } := by
  refine ⟨admitAll_lastSeen ids ⟨0, c⟩, ?_, setNewLastSeenId_fst st i⟩
  unfold State.setNewLastSeenId
  by_cases h : st.lastSeenProposal < i <;> simp [h]

/-- Contents of the snapshot file at `STATE_PATH`, `none` when the file does
not exist. -/
structure DiskState where
  snapshotFile : Option String
deriving DecidableEq

/-- Result of one `State.persist` run: either the process was terminated by
`log.Fatal`, or it finished leaving the disk in the given state. -/
inductive PersistResult where
  | crashed
  | done (disk : DiskState)
deriving DecidableEq

/-- Outcome of the `os.WriteFile` call inside `State.persist`: success, or an
error with the temporary file holding `leftover` (the `ioutil.TempFile` call
created it empty, so `leftover` is `""` or whatever strict prefix of the data
made it to disk before the error). -/
inductive WriteOutcome where
  | ok
  | failed (leftover : String)
deriving DecidableEq

/-- `State.persist` (src/main.go lines 47-65) over the outcomes of its three
I/O calls.  `data` is the `json.Marshal` serialization of the state;
`marshalOk` is whether `json.Marshal` succeeded (error → early `return`,
disk untouched); `tempFileOk` is whether `ioutil.TempFile` succeeded (error →
`log.Fatal`, which terminates the process); `w` is the `os.WriteFile`
outcome.  A `WriteFile` error is logged but — exactly as in the source —
execution continues, and `os.Rename(tmpFile.Name(), STATE_PATH)` runs
unconditionally, moving the temporary file's content over the snapshot. -/
def State.persist (disk : DiskState) (data : String)
    (marshalOk tempFileOk : Bool) (w : WriteOutcome) : PersistResult :=
  if !marshalOk then .done disk
  else if !tempFileOk then .crashed
  else
    let tmpContent := match w with
      | .ok => data
      | .failed leftover => leftover
    .done { snapshotFile := some tmpContent }

/-- Claim C1 (code bug): when the temporary-file write fails, `State.persist`
still renames the temporary file over the snapshot path, so the previously
persisted snapshot is replaced by the partial (possibly empty) temporary
content — for every previous snapshot, every serialized state and every
leftover content; in particular an existing snapshot `"old"` is replaced by
the empty string left by the failed write. -/
theorem C1_persist_clobbers_on_write_failure :
    (∀ (prev data leftover : String),
      State.persist ⟨some prev⟩ data true true (.failed leftover)
        = .done ⟨some leftover⟩)
    ∧ State.persist ⟨some "old"⟩ "new" true true (.failed "")
        = .done ⟨some ""⟩
    ∧ (⟨some ""⟩ : DiskState) ≠ ⟨some "old"⟩ := by
  refine ⟨fun prev data leftover => rfl, rfl, by decide⟩

/-- Result of a Telegram `bot.Send` for one chat, as inspected by the
dispatcher loop (src/main.go lines 282-288): success, an error containing the
"bot was blocked by the user" signal, or any other error. -/
inductive SendResult where
  | ok
  | blockedByUser
  | otherError
deriving DecidableEq

/-- The per-chat body of the dispatch loop (src/main.go lines 278-289): a
send whose error contains "bot was blocked by the user" unsubscribes the
chat; every other outcome leaves the state unchanged. -/
def sendStep (send : Int → SendResult) (st : State) (id : Int) : State :=
  match send id with
  | .blockedByUser => st.removeChatId id
  | _ => st

/-- The dispatch loop over the eligible chat ids (src/main.go lines 278-289). -/
def dispatchTo (send : Int → SendResult) (s : State) (ids : List Int) : State :=
  ids.foldl (sendStep send) s

/-- Insertion of one proposal into an id-sorted list. -/
def insertById (p : Proposal) : List Proposal → List Proposal
  | [] => [p]
  | q :: qs => if p.id ≤ q.id then p :: q :: qs else q :: insertById p qs

/-- The `sort.Slice(proposals, ...Id < ...Id)` call (src/main.go line 260):
sort the fetched proposals ascending by identifier.  (Go's sort is an
unspecified unstable sort; insertion sort realizes the same postcondition.) -/
def sortById : List Proposal → List Proposal
  | [] => []
  | p :: ps => insertById p (sortById ps)

/-- The replacement notice used when a summary is over-long (src/main.go
line 269). -/
def summaryNotice : String := "[Proposal summary is too long.]"

/-- The summary-truncation step of the dispatcher (src/main.go lines 267-270):
the summary is replaced by the notice when `len(summary)+2 > MAX_SUMMARY_LENGTH`. -/
def renderSummary (summary : String) : String :=
  if MAX_SUMMARY_LENGTH < summary.utf8ByteSize + 2 then summaryNotice else summary

/-- The newline wrapping of a non-empty (rendered) summary (src/main.go
lines 271-273). -/
def summaryBlock (summary : String) : String :=
  let s := renderSummary summary
  if 0 < s.utf8ByteSize then "\n" ++ s ++ "\n" else s

/-- The `fmt.Sprintf` building the outbound message (src/main.go
lines 274-275). -/
def buildText (title : String) (proposer : Nat) (summary : String)
    (topic : String) (id : Nat) : String :=
  "<b>" ++ title ++ "</b>\n\nProposer: " ++ toString proposer ++ "\n"
    ++ summaryBlock summary ++ "\n#" ++ topic
    ++ "\n\nhttps://nns.ic0.app/proposal/?proposal=" ++ toString id

/-- The body of the per-proposal loop (src/main.go lines 262-293) as a fold
step: admit the id via `setNewLastSeenId` (skip the proposal when it is a
duplicate), compute the eligible chats, send to each of them (unsubscribing
chats whose send reports "blocked by the user"), and record the dispatch. -/
def pollStep (send : Int → SendResult)
    (acc : State × List (Proposal × List Int)) (p : Proposal) :
    State × List (Proposal × List Int) :=
  if acc.1.lastSeenProposal < p.id then
    let st1 : State := { acc.1 with lastSeenProposal := p.id }
    let ids := st1.chatIdsForTopic p.topic
    (dispatchTo send st1 ids, acc.2 ++ [(p, ids)])
  else acc

/-- The per-tick processing of a successfully parsed proposal list
(src/main.go lines 260-293): sort ascending by id, then run the dispatch
loop.  Returns the final state and the dispatches performed, in order. -/
def processProposals (send : Int → SendResult) (s : State) (ps : List Proposal) :
    State × List (Proposal × List Int) :=
  (sortById ps).foldl (pollStep send) (s, [])

/-- Outcome of the feed fetch on one tick of `fetchProposalsAndNotify`
(src/main.go lines 245-258): either `http.Get` itself returned an error (in
which case `resp` is nil), or a body was obtained and `json.Unmarshal` either
failed (`none`) or produced a proposal list. -/
inductive FetchOutcome where
  | netError
  | fetched (parsed : Option (List Proposal))

/-- One tick of `fetchProposalsAndNotify` (src/main.go lines 244-294).
`none` models a process crash: when `http.Get` returns an error the code only
logs it and then evaluates `ioutil.ReadAll(resp.Body)` with `resp == nil`,
a nil-pointer dereference that panics the process.  A parse failure hits the
`continue`, ending the tick with the state untouched. -/
def pollTick (send : Int → SendResult) (s : State) (f : FetchOutcome) :
    Option (State × List (Proposal × List Int)) :=
  match f with
  | .netError => none
  | .fetched none => some (s, [])
  | .fetched (some ps) => some (processProposals send s ps)

/-- Claim C2 (code bug): a parse failure does abort only the tick with the
watermark untouched, but a failed `http.Get` does not — it crashes the whole
process (nil response dereference), for every state and every send
behaviour. -/
theorem C2_netError_crashes (send : Int → SendResult) (s : State) :
    pollTick send s .netError = none
    ∧ pollTick send s (.fetched none) = some (s, []) :=
  ⟨rfl, rfl⟩

theorem mem_insertById {p q : Proposal} {l : List Proposal} :
    q ∈ insertById p l → q = p ∨ q ∈ l := by
  induction l with
  | nil => intro h; simp [insertById] at h; exact Or.inl h
  | cons a as ih =>
    intro h
    unfold insertById at h
    by_cases hle : p.id ≤ a.id
    · simp [hle] at h
      rcases h with h | h | h
      · exact Or.inl h
      · exact Or.inr (by simp [h])
      · exact Or.inr (by simp [h])
    · simp [hle] at h
      rcases h with h | h
      · exact Or.inr (by simp [h])
      · rcases ih h with h | h
        · exact Or.inl h
        · exact Or.inr (by simp [h])

theorem insertById_sorted {p : Proposal} {l : List Proposal}
    (h : l.Pairwise (fun a b => a.id ≤ b.id)) :
    (insertById p l).Pairwise (fun a b => a.id ≤ b.id) := by
  induction l with
  | nil => simp [insertById]
  | cons a as ih =>
    rcases List.pairwise_cons.1 h with ⟨ha, has⟩
    unfold insertById
    by_cases hle : p.id ≤ a.id
    · simp only [if_pos hle]
      refine List.pairwise_cons.2 ⟨?_, h⟩
      intro b hb
      rcases hb with _ | hb
      · exact hle
      · exact Nat.le_trans hle (ha b (by assumption))
    · simp only [if_neg hle]
      refine List.pairwise_cons.2 ⟨?_, ih has⟩
      intro b hb
      rcases mem_insertById hb with rfl | hb
      · exact Nat.le_of_lt (Nat.lt_of_not_le hle)
      · exact ha b hb

theorem sortById_sorted (ps : List Proposal) :
    (sortById ps).Pairwise (fun a b => a.id ≤ b.id) := by
  induction ps with
  | nil => simp [sortById]
  | cons p rest ih => exact insertById_sorted ih

theorem insertById_perm (p : Proposal) (l : List Proposal) :
    (insertById p l).Perm (p :: l) := by
  induction l with
  | nil => simp [insertById]
  | cons a as ih =>
    unfold insertById
    by_cases hle : p.id ≤ a.id
    · simp [hle]
    · simp only [if_neg hle]
      exact ((ih.cons a).trans (List.Perm.swap p a as))

theorem sortById_perm (ps : List Proposal) : (sortById ps).Perm ps := by
  induction ps with
  | nil => simp [sortById]
  | cons p rest ih =>
    exact (insertById_perm p (sortById rest)).trans (ih.cons p)

theorem removeChatId_lastSeen (s : State) (id : Int) :
    (s.removeChatId id).lastSeenProposal = s.lastSeenProposal := rfl

theorem sendStep_lastSeen (send : Int → SendResult) (st : State) (id : Int) :
    (sendStep send st id).lastSeenProposal = st.lastSeenProposal := by
  unfold sendStep
  cases send id <;> rfl

theorem dispatchTo_lastSeen (send : Int → SendResult) (ids : List Int) :
    ∀ s : State, (dispatchTo send s ids).lastSeenProposal = s.lastSeenProposal := by
  induction ids with
  | nil => intro s; rfl
  | cons i rest ih =>
    intro s
    show (dispatchTo send (sendStep send s i) rest).lastSeenProposal = _
    rw [ih, sendStep_lastSeen]

theorem pollFold_invariant (send : Int → SendResult) (l : List Proposal) :
    ∀ (st : State) (out : List (Proposal × List Int)),
      (∀ q ∈ out, q.1.id ≤ st.lastSeenProposal) →
      out.Pairwise (fun a b => a.1.id < b.1.id) →
      (∀ q ∈ (l.foldl (pollStep send) (st, out)).2,
          q.1.id ≤ (l.foldl (pollStep send) (st, out)).1.lastSeenProposal)
      ∧ (l.foldl (pollStep send) (st, out)).2.Pairwise (fun a b => a.1.id < b.1.id) := by
  induction l with
  | nil => intro st out h1 h2; exact ⟨h1, h2⟩
  | cons p rest ih =>
    intro st out h1 h2
    rw [List.foldl_cons]
    unfold pollStep
    by_cases hp : st.lastSeenProposal < p.id
    · simp only [hp, if_pos]
      apply ih
      · intro q hq
        rw [dispatchTo_lastSeen]
        rcases List.mem_append.1 hq with hq | hq
        · exact Nat.le_trans (h1 q hq) (Nat.le_of_lt hp)
        · simp at hq; simp [hq]
      · rw [List.pairwise_append]
        refine ⟨h2, List.pairwise_singleton _ _, ?_⟩
        intro a ha b hb
        simp at hb
        rw [hb]
        exact Nat.lt_of_le_of_lt (h1 a ha) hp
    · simp only [hp, if_neg]
      exact ih st out h1 h2

/-- Leading example state of the end-to-end scenario: watermark 0, one
subscribed chat (id 1) with no blocked topics. -/
def exState0 : State := ⟨0, [(1, [])]⟩

/-- Example send behaviour in which every delivery succeeds. -/
def sendOk : Int → SendResult := fun _ => SendResult.ok

/-- Example proposal with identifier 5 and topic "X". -/
def exP5 : Proposal := ⟨"t5", "X", 5, "", 7⟩

/-- Example proposal with identifier 3 and topic "Governance". -/
def exP3 : Proposal := ⟨"t3", "Governance", 3, "", 7⟩

/-- Claim C5: on every tick the fetched proposals are sorted ascending by
identifier before processing (the processed list is an ascending permutation
of the fetch result), the dispatched proposals appear in strictly ascending
identifier order for every input, and concretely: from watermark 0 an
unordered feed `[{id 5}, {id 3}]` yields both proposals dispatched in the
order id 3 then id 5, while a second poll returning the same two ids from the
resulting state yields zero dispatches and leaves the state unchanged. -/
theorem C5_sorted_dispatch (send : Int → SendResult) (st : State)
    (ps : List Proposal) :
    (sortById ps).Pairwise (fun a b => a.id ≤ b.id)
    ∧ (sortById ps).Perm ps
    ∧ (processProposals send st ps).2.Pairwise (fun a b => a.1.id < b.1.id)
    ∧ processProposals sendOk exState0 [exP5, exP3]
        = (⟨5, [(1, [])]⟩, [(exP3, [1]), (exP5, [1])])
    ∧ processProposals sendOk ⟨5, [(1, [])]⟩ [exP5, exP3]
        = (⟨5, [(1, [])]⟩, []) := by
  refine ⟨sortById_sorted ps, sortById_perm ps, ?_, by decide, by decide⟩
  exact (pollFold_invariant send (sortById ps) st [] (by simp) (by simp)).2

theorem chatIdsForTopic_singleton (w : Nat) (r : Int) (bl : List String)
    (topic : String) :
    State.chatIdsForTopic ⟨w, [(r, bl)]⟩ topic
      = if eligibleB bl topic then [r] else [] := by
  cases heq : eligibleB bl topic <;>
    simp [State.chatIdsForTopic, List.filter_cons, heq]

/-- Claim C4 counterexample: a subscribed chat whose filter set contains the
governance-only sentinel together with a blocked "Governance" entry is NOT
eligible for topic "Governance", although the claim says sentinel holders are
eligible for "Governance" regardless of the other entries. -/
theorem C4_counterexample :
    ([ALL_EXCEPT_GOVERNANCE, TOPIC_GOVERNANCE].contains ALL_EXCEPT_GOVERNANCE = true)
    ∧ State.chatIdsForTopic
        ⟨0, [(1, [ALL_EXCEPT_GOVERNANCE, TOPIC_GOVERNANCE])]⟩ TOPIC_GOVERNANCE = []
    ∧ (1 : Int) ∉ State.chatIdsForTopic
        ⟨0, [(1, [ALL_EXCEPT_GOVERNANCE, TOPIC_GOVERNANCE])]⟩ TOPIC_GOVERNANCE := by
  decide

/-- Claim C4 as amended: for a chat whose filter set contains the
governance-only sentinel, eligibility holds iff the topic is "Governance"
AND the topic itself is not among the blocked entries (a blocked "Governance"
entry overrides the sentinel); in particular a chat with only the sentinel is
eligible exactly for "Governance" and for no other topic string. -/
theorem C4_amended (w : Nat) (r : Int) (bl : List String) (topic : String)
    (hs : bl.contains ALL_EXCEPT_GOVERNANCE = true) :
    eligibleB bl topic = (topic == TOPIC_GOVERNANCE && !(bl.contains topic))
    ∧ State.chatIdsForTopic ⟨w, [(r, bl)]⟩ topic
        = (if topic == TOPIC_GOVERNANCE && !(bl.contains topic) then [r] else [])
    ∧ State.chatIdsForTopic ⟨w, [(r, [ALL_EXCEPT_GOVERNANCE])]⟩ topic
        = (if topic == TOPIC_GOVERNANCE then [r] else []) := by
  have h1 : eligibleB bl topic = (topic == TOPIC_GOVERNANCE && !(bl.contains topic)) := by
    cases hc : bl.contains topic <;> cases hg : (topic == TOPIC_GOVERNANCE) <;>
      (unfold eligibleB; rw [hs, hc, hg]) <;> rfl
  refine ⟨h1, ?_, ?_⟩
  · rw [chatIdsForTopic_singleton, h1]
  · rw [chatIdsForTopic_singleton]
    cases hg : (topic == TOPIC_GOVERNANCE) with
    | true =>
      have ht : topic = TOPIC_GOVERNANCE := eq_of_beq hg
      subst ht
      have he : eligibleB [ALL_EXCEPT_GOVERNANCE] TOPIC_GOVERNANCE = true := by decide
      rw [he]
    | false =>
      have he : eligibleB [ALL_EXCEPT_GOVERNANCE] topic = false := by
        unfold eligibleB
        rw [hg]
        have hss : ([ALL_EXCEPT_GOVERNANCE].contains ALL_EXCEPT_GOVERNANCE) = true := by decide
        rw [hss]
        simp
      rw [he]

/-- Claim C4 witness: instantiation at chat 1 whose filter set is the
sentinel together with a blocked topic "X", for topic "X". -/
theorem C4_amended_witness :
    eligibleB [ALL_EXCEPT_GOVERNANCE, "X"] "X"
        = (("X" : String) == TOPIC_GOVERNANCE && !([ALL_EXCEPT_GOVERNANCE, "X"].contains "X"))
    ∧ State.chatIdsForTopic ⟨0, [(1, [ALL_EXCEPT_GOVERNANCE, "X"])]⟩ "X"
        = (if ("X" : String) == TOPIC_GOVERNANCE && !([ALL_EXCEPT_GOVERNANCE, "X"].contains "X")
           then [1] else [])
    ∧ State.chatIdsForTopic ⟨0, [(1, [ALL_EXCEPT_GOVERNANCE])]⟩ "X"
        = (if ("X" : String) == TOPIC_GOVERNANCE then [1] else []) :=
  C4_amended 0 1 [ALL_EXCEPT_GOVERNANCE, "X"] "X" (by decide)

theorem lookupBl_updateBl (r : Int) (v : List String) :
    ∀ (l : List (Int × List String)) (b : List String),
      lookupBl l r = some b → lookupBl (updateBl l r v) r = some v := by
  intro l
  induction l with
  | nil => intro b h; simp [lookupBl] at h
  | cons p rest ih =>
    intro b h
    by_cases hk : p.1 = r
    · simp [lookupBl, updateBl, hk]
    · simp only [lookupBl, updateBl, hk, if_neg] at h ⊢
      exact ih b h

theorem updateBl_updateBl (r : Int) (v1 v2 : List String) :
    ∀ l : List (Int × List String),
      updateBl (updateBl l r v1) r v2 = updateBl l r v2 := by
  intro l
  induction l with
  | nil => rfl
  | cons p rest ih =>
    by_cases hk : p.1 = r
    · simp [updateBl, hk]
    · simp [updateBl, hk, ih]

theorem updateBl_self (r : Int) :
    ∀ (l : List (Int × List String)) (v : List String),
      lookupBl l r = some v → updateBl l r v = l := by
  intro l
  induction l with
  | nil => intro v h; rfl
  | cons p rest ih =>
    intro v h
    obtain ⟨k, vv⟩ := p
    by_cases hk : k = r
    · simp only [lookupBl, hk, if_pos] at h
      cases h
      simp [updateBl, hk]
    · simp only [lookupBl, hk, if_neg] at h
      simp [updateBl, hk, ih v h]

theorem unblock_restores (st : State) (r : Int) (bl : List String) (label : String)
    (h : lookupBl st.chatIds r = some bl) (hmem : label ∉ bl) :
    st.unblockTopic r label = st := by
  unfold State.unblockTopic
  simp only [h]
  rw [List.erase_of_not_mem hmem, updateBl_self r st.chatIds bl h]

/-- Claim C6 counterexample: for chat 1 whose filter set already blocks "X",
`blockTopic 1 "X"` followed by `unblockTopic 1 "X"` does not restore the
pre-block behaviour: chat 1 was ineligible for topic "X" before and is
eligible after. -/
theorem C6_counterexample :
    State.chatIdsForTopic ⟨0, [(1, ["X"])]⟩ "X" = []
    ∧ State.chatIdsForTopic
        ((State.blockTopic ⟨0, [(1, ["X"])]⟩ 1 "X").unblockTopic 1 "X") "X" = [1] := by
  decide

/-- Claim C6 as amended: provided the label is not already in the recipient's
filter set, `blockTopic` followed by `unblockTopic` with the same label
restores the whole state exactly — hence in particular the
`chatIdsForTopic` behaviour for every recipient/topic pair. -/
theorem C6_amended (st : State) (r : Int) (bl : List String) (label : String)
    (h : lookupBl st.chatIds r = some bl) (hmem : label ∉ bl) :
    (st.blockTopic r label).unblockTopic r label = st := by
  unfold State.blockTopic
  by_cases hlen : label.utf8ByteSize > MAX_TOPIC_LENGTH
  · rw [if_pos hlen]
    exact unblock_restores st r bl label h hmem
  · rw [if_neg hlen]
    simp only [h]
    by_cases hq : bl.length < MAX_BLOCKED_TOPICS
    · rw [if_pos hq, if_neg hmem]
      unfold State.unblockTopic
      have h2 : lookupBl (updateBl st.chatIds r (bl ++ [label])) r = some (bl ++ [label]) :=
        lookupBl_updateBl r (bl ++ [label]) st.chatIds bl h
      simp only [h2]
      rw [List.erase_append_right _ hmem]
      simp only [List.erase_cons_head, List.append_nil]
      rw [updateBl_updateBl, updateBl_self r st.chatIds bl h]
    · rw [if_neg hq]
      exact unblock_restores st r bl label h hmem

/-- Claim C6 witness: chat 1 with filter set `["A"]` and the fresh label
`"B"`. -/
theorem C6_amended_witness :
    (State.blockTopic ⟨0, [(1, ["A"])]⟩ 1 "B").unblockTopic 1 "B" = ⟨0, [(1, ["A"])]⟩ :=
  C6_amended ⟨0, [(1, ["A"])]⟩ 1 ["A"] "B" (by decide) (by decide)

/-- Claim C7: `blockTopic` silently enforces the limits — when the
recipient's filter set already has 30 (`MAX_BLOCKED_TOPICS`) entries any
further `blockTopic` call leaves the state unchanged, and a label longer
than 50 (`MAX_TOPIC_LENGTH`) bytes leaves the state unchanged regardless of
the current entry count; the function returns only a state, so no error can
be surfaced. -/
theorem C7_block_limits (st : State) (r : Int) (topic : String) (bl : List String) :
    (lookupBl st.chatIds r = some bl → bl.length = MAX_BLOCKED_TOPICS →
      st.blockTopic r topic = st)
    ∧ (topic.utf8ByteSize > MAX_TOPIC_LENGTH → st.blockTopic r topic = st) := by
  constructor
  · intro h hfull
    unfold State.blockTopic
    by_cases hlen : topic.utf8ByteSize > MAX_TOPIC_LENGTH
    · rw [if_pos hlen]
    · rw [if_neg hlen]
      simp only [h]
      rw [if_neg (by rw [hfull]; exact Nat.lt_irrefl _)]
  · intro hlen
    unfold State.blockTopic
    rw [if_pos hlen]

/-- Example filter set of 30 distinct labels. -/
def bl30 : List String := (List.range 30).map (fun n => toString n)

/-- Example over-long label of 51 bytes. -/
def label51 : String := String.mk (List.replicate 51 'a')

/-- Claim C7 witness: for a chat with exactly 30 blocked labels a 31st valid
label is dropped, and `label51` is dropped even for a chat with one blocked
label. -/
theorem C7_block_limits_witness :
    State.blockTopic ⟨0, [(7, bl30)]⟩ 7 "Network" = ⟨0, [(7, bl30)]⟩
    ∧ State.blockTopic ⟨0, [(7, ["X"])]⟩ 7 label51 = ⟨0, [(7, ["X"])]⟩ :=
  ⟨(C7_block_limits ⟨0, [(7, bl30)]⟩ 7 "Network" bl30).1 (by rfl) (by decide),
   (C7_block_limits ⟨0, [(7, ["X"])]⟩ 7 label51 ["X"]).2 (by decide)⟩

theorem nonemptyMsg_ne_emptyMsg (x : String) :
    ("You've blocked these topics: " ++ x ++ ".")
      ≠ "Your list of blocked topics is empty." := by
  intro h
  have h1 := congrArg String.data h
  rw [String.data_append, String.data_append] at h1
  have h2 := congrArg (fun l => l[3]?) h1
  simp only at h2
  rw [List.getElem?_append_left, List.getElem?_append_left (by decide)] at h2
  · exact absurd h2 (by decide)
  · simp [List.length_append]

/-- Claim C8 counterexample: the governance-only sentinel is listed by
`blockedTopics` verbatim, by exactly the same rendering rule as an ordinary
blocked label (so it is neither excluded nor rendered distinctly), and the
labels are joined in stored order, not sorted. -/
theorem C8_counterexample :
    State.blockedTopics ⟨0, [(1, [ALL_EXCEPT_GOVERNANCE])]⟩ 1
      = "You've blocked these topics: AllButGovernance."
    ∧ State.blockedTopics ⟨0, [(1, ["Crypto"])]⟩ 1
      = "You've blocked these topics: Crypto."
    ∧ State.blockedTopics ⟨0, [(1, ["b", "a"])]⟩ 1
      = "You've blocked these topics: b, a." := by
  decide

/-- Claim C8 as amended: `blockedTopics` returns the blocked labels joined in
stored (map-iteration) order — not sorted — with sentinel labels included and
rendered exactly like ordinary topics; the empty-set case is a fixed message
that differs from every non-empty output. -/
theorem C8_amended (st : State) (r : Int) (bl : List String)
    (h : lookupBl st.chatIds r = some bl) :
    (bl = [] → st.blockedTopics r = "Your list of blocked topics is empty.")
    ∧ (bl ≠ [] → st.blockedTopics r
          = "You've blocked these topics: " ++ String.intercalate ", " bl ++ "."
        ∧ st.blockedTopics r ≠ "Your list of blocked topics is empty.") := by
  unfold State.blockedTopics
  simp only [h]
  cases bl with
  | nil => exact ⟨fun _ => rfl, fun hne => absurd rfl hne⟩
  | cons b bs =>
    refine ⟨fun h0 => absurd h0 (by simp), fun _ => ⟨rfl, nonemptyMsg_ne_emptyMsg _⟩⟩

/-- Claim C8 witness: chat 2 with an empty filter set gets the fixed empty
message; chat 1 with the single blocked label "Crypto" gets the joined
listing, which differs from the empty message. -/
theorem C8_amended_witness :
    State.blockedTopics ⟨0, [(2, [])]⟩ 2 = "Your list of blocked topics is empty."
    ∧ (State.blockedTopics ⟨0, [(1, ["Crypto"])]⟩ 1
          = "You've blocked these topics: " ++ String.intercalate ", " ["Crypto"] ++ "."
        ∧ State.blockedTopics ⟨0, [(1, ["Crypto"])]⟩ 1
          ≠ "Your list of blocked topics is empty.") :=
  ⟨(C8_amended ⟨0, [(2, [])]⟩ 2 [] (by decide)).1 rfl,
   (C8_amended ⟨0, [(1, ["Crypto"])]⟩ 1 ["Crypto"] (by decide)).2 (by decide)⟩

/-- Claim C10: the governance-only modifier is the ordinary entry
`"AllButGovernance"` stored in the same blocked-label list as ordinary
topics: any filter set containing it is ineligible for every non-"Governance"
topic (so blocking the literal topic `"AllButGovernance"` necessarily enters
governance-only mode); `blockTopic` with the sentinel adds it under the same
quota — with a full 30-entry filter set it silently does nothing;
`unblockTopic` with the sentinel removes it (for the duplicate-free filter
sets a Go map yields, the sentinel is gone afterwards); and the sentinel
appears in the `blockedTopics` listing exactly like an ordinary blocked
topic. -/
theorem C10_sentinel_ordinary_entry (st : State) (r : Int) (bl : List String)
    (topic : String) :
    (bl.contains ALL_EXCEPT_GOVERNANCE = true → topic ≠ TOPIC_GOVERNANCE →
      eligibleB bl topic = false)
    ∧ (lookupBl st.chatIds r = some bl → bl.length < MAX_BLOCKED_TOPICS →
        lookupBl (st.blockTopic r ALL_EXCEPT_GOVERNANCE).chatIds r
          = some (if ALL_EXCEPT_GOVERNANCE ∈ bl then bl else bl ++ [ALL_EXCEPT_GOVERNANCE])
        ∧ ALL_EXCEPT_GOVERNANCE
            ∈ (if ALL_EXCEPT_GOVERNANCE ∈ bl then bl else bl ++ [ALL_EXCEPT_GOVERNANCE]))
    ∧ (lookupBl st.chatIds r = some bl → bl.length = MAX_BLOCKED_TOPICS →
        st.blockTopic r ALL_EXCEPT_GOVERNANCE = st)
    ∧ (lookupBl st.chatIds r = some bl → bl.Nodup →
        lookupBl (st.unblockTopic r ALL_EXCEPT_GOVERNANCE).chatIds r
          = some (bl.erase ALL_EXCEPT_GOVERNANCE)
        ∧ ALL_EXCEPT_GOVERNANCE ∉ bl.erase ALL_EXCEPT_GOVERNANCE)
    ∧ State.blockedTopics ⟨0, [(9, [ALL_EXCEPT_GOVERNANCE])]⟩ 9
        = "You've blocked these topics: AllButGovernance." := by
  refine ⟨?_, ?_, ?_, ?_, by decide⟩
  · intro hsent hne
    unfold eligibleB
    rw [hsent, beq_eq_false_iff_ne.2 hne]
    simp
  · intro h hq
    unfold State.blockTopic
    rw [if_neg (by decide)]
    simp only [h]
    rw [if_pos hq]
    refine ⟨lookupBl_updateBl r _ st.chatIds bl h, ?_⟩
    by_cases hmem : ALL_EXCEPT_GOVERNANCE ∈ bl
    · simp [hmem]
    · simp [hmem]
  · intro h hfull
    unfold State.blockTopic
    rw [if_neg (by decide)]
    simp only [h]
    rw [if_neg (by rw [hfull]; exact Nat.lt_irrefl _)]
  · intro h hnd
    unfold State.unblockTopic
    simp only [h]
    exact ⟨lookupBl_updateBl r _ st.chatIds bl h, hnd.not_mem_erase⟩

/-- Claim C10 witness: chat 1 with filter set `["X"]` (room left) gains the
sentinel via `blockTopic` and loses eligibility for topic "X"; chat 7 with a
full 30-entry filter set is unchanged by `blockTopic` of the sentinel;
`unblockTopic` removes the sentinel from `["X", "AllButGovernance"]`. -/
theorem C10_sentinel_witness :
    eligibleB ["X", ALL_EXCEPT_GOVERNANCE] "X" = false
    ∧ lookupBl (State.blockTopic ⟨0, [(1, ["X"])]⟩ 1 ALL_EXCEPT_GOVERNANCE).chatIds 1
        = some (if ALL_EXCEPT_GOVERNANCE ∈ ["X"] then ["X"] else ["X"] ++ [ALL_EXCEPT_GOVERNANCE])
    ∧ State.blockTopic ⟨0, [(7, bl30)]⟩ 7 ALL_EXCEPT_GOVERNANCE = ⟨0, [(7, bl30)]⟩
    ∧ lookupBl (State.unblockTopic ⟨0, [(1, ["X", ALL_EXCEPT_GOVERNANCE])]⟩ 1
          ALL_EXCEPT_GOVERNANCE).chatIds 1
        = some (["X", ALL_EXCEPT_GOVERNANCE].erase ALL_EXCEPT_GOVERNANCE) :=
  ⟨(C10_sentinel_ordinary_entry ⟨0, []⟩ 0 ["X", ALL_EXCEPT_GOVERNANCE] "X").1
      (by decide) (by decide),
   ((C10_sentinel_ordinary_entry ⟨0, [(1, ["X"])]⟩ 1 ["X"] "X").2.1
      (by decide) (by decide)).1,
   (C10_sentinel_ordinary_entry ⟨0, [(7, bl30)]⟩ 7 bl30 "X").2.2.1
      (by rfl) (by decide),
   ((C10_sentinel_ordinary_entry ⟨0, [(1, ["X", ALL_EXCEPT_GOVERNANCE])]⟩ 1
        ["X", ALL_EXCEPT_GOVERNANCE] "X").2.2.2.1 (by decide) (by decide)).1⟩

theorem utf8Go_replicate (c : Char) :
    ∀ n, String.utf8ByteSize.go (List.replicate n c) = n * c.utf8Size := by
  intro n
  induction n with
  | zero => simp [String.utf8ByteSize.go]
  | succ m ih =>
    show String.utf8ByteSize.go (c :: List.replicate m c) = _
    show String.utf8ByteSize.go (List.replicate m c) + c.utf8Size = _
    rw [ih, Nat.succ_mul]

theorem utf8ByteSize_mk_replicate (n : Nat) (c : Char) :
    (String.mk (List.replicate n c)).utf8ByteSize = n * c.utf8Size :=
  utf8Go_replicate c n

/-- Example summary of 2047 bytes (2047 ASCII characters). -/
def longSummary : String := String.mk (List.replicate 2047 'a')

theorem longSummary_size : longSummary.utf8ByteSize = 2047 := by
  rw [longSummary, utf8ByteSize_mk_replicate]
  decide

/-- Claim C9 counterexample: a summary of 2047 bytes does not exceed
`MAX_SUMMARY_LENGTH = 2048`, yet the dispatcher replaces it with the notice
(the code tests `len(summary)+2 > MAX_SUMMARY_LENGTH`), so the outbound
message does not contain it unchanged. -/
theorem C9_counterexample :
    longSummary.utf8ByteSize ≤ MAX_SUMMARY_LENGTH
    ∧ renderSummary longSummary = summaryNotice
    ∧ renderSummary longSummary ≠ longSummary := by
  have h2 : renderSummary longSummary = summaryNotice := by
    unfold renderSummary
    rw [if_pos (by rw [longSummary_size]; decide)]
  refine ⟨by rw [longSummary_size]; decide, h2, ?_⟩
  rw [h2]
  intro heq
  have hlen := congrArg String.utf8ByteSize heq
  rw [longSummary_size] at hlen
  exact absurd hlen (by decide)

/-- Claim C9 as amended: the outbound message contains the summary unchanged
when the summary's byte length plus 2 does not exceed `MAX_SUMMARY_LENGTH`
(that is, length at most 2046), and the replacement notice exactly when the
byte length plus 2 exceeds it — in which case the whole message equals the
message built from the notice. -/
theorem C9_amended (s title topic : String) (proposer idn : Nat) :
    (s.utf8ByteSize + 2 ≤ MAX_SUMMARY_LENGTH → renderSummary s = s)
    ∧ (MAX_SUMMARY_LENGTH < s.utf8ByteSize + 2 →
        renderSummary s = summaryNotice
        ∧ buildText title proposer s topic idn
            = buildText title proposer summaryNotice topic idn) := by
  constructor
  · intro h
    unfold renderSummary
    rw [if_neg (Nat.not_lt.2 h)]
  · intro h
    have h1 : renderSummary s = summaryNotice := by
      unfold renderSummary
      rw [if_pos h]
    have h2 : renderSummary summaryNotice = summaryNotice := by
      unfold renderSummary
      rw [if_neg (by decide)]
    refine ⟨h1, ?_⟩
    unfold buildText summaryBlock
    rw [h1, h2]

/-- Claim C9 witness: the two regimes at the concrete summaries `"hi"`
(2 bytes, kept verbatim) and `longSummary` (2047 bytes, replaced). -/
theorem C9_amended_witness :
    renderSummary "hi" = "hi"
    ∧ (renderSummary longSummary = summaryNotice
        ∧ buildText "t" 1 longSummary "X" 2 = buildText "t" 1 summaryNotice "X" 2) :=
  ⟨(C9_amended "hi" "t" "X" 1 2).1 (by decide),
   (C9_amended longSummary "t" "X" 1 2).2 (by rw [longSummary_size]; decide)⟩

end NNSBot
